import Mathlib

/-!
Shallow embedding of the offline-first task sync backend
(`src/services/taskService.ts`, `src/services/syncService.ts`,
`src/routes/tasks.ts`, sync routes) and proofs about its
queue/sync invariants.

Timestamps are modelled as naturals (`new Date()` values are threaded in
as explicit `now` arguments), and freshly generated uuids are threaded in
as explicit id arguments.  The SQLite store is modelled as two lists of
rows (`tasks`, `sync_queue`); the SQL statements appearing in the source
are given their standard semantics over these lists (`UPDATE ... WHERE`
maps over matching rows, `DELETE ... WHERE` filters, `INSERT` appends,
`SELECT ... ORDER BY created_at ASC` is a sort by `created_at`).
-/

namespace OfflineSync

/-- Sync status column of a task row: 'pending' | 'synced' | 'error'. -/
inductive SyncStatus where
  | pending
  | synced
  | error
deriving DecidableEq, Repr

/-- Queue operations: 'create' | 'update' | 'delete'. -/
inductive Op where
  | create
  | update
  | delete
deriving DecidableEq, Repr

/-- String form of an operation, as it appears in SyncError rows. -/
def Op.toStr : Op → String
  | .create => "create"
  | .update => "update"
  | .delete => "delete"

/-- A row of the `tasks` table (the `Task` type of `src/types`). -/
structure Task where
  id : String
  title : String
  description : Option String
  completed : Bool
  created_at : Nat
  updated_at : Nat
  is_deleted : Bool
  sync_status : SyncStatus
  server_id : Option String
  last_synced_at : Option Nat
deriving DecidableEq, Repr

/-- The JSON snapshot stored in a queue entry's `data` column
(`JSON.stringify({id, title, description, completed, created_at, updated_at, is_deleted})`). -/
structure Snapshot where
  id : String
  title : String
  description : Option String
  completed : Bool
  created_at : Nat
  updated_at : Nat
  is_deleted : Bool
deriving DecidableEq, Repr

/-- A row of the `sync_queue` table (the `SyncQueueItem` type of `src/types`). -/
structure SyncQueueItem where
  id : String
  task_id : String
  operation : Op
  data : Snapshot
  created_at : Nat
  retry_count : Nat
  error_message : Option String
deriving DecidableEq, Repr

/-- The durable store: the two tables used by the services. -/
structure DB where
  tasks : List Task
  queue : List SyncQueueItem
deriving DecidableEq, Repr

/-- The empty store. -/
def DB.empty : DB := ⟨[], []⟩

/-- JavaScript `String.prototype.trim`: strips leading and trailing
whitespace.  Written structurally over the character list so that it can
be evaluated by kernel reduction. -/
def jsTrim (s : String) : String :=
  ⟨((s.data.dropWhile Char.isWhitespace).reverse.dropWhile
      Char.isWhitespace).reverse⟩

/-- `SELECT * FROM tasks WHERE id = ?` via `db.get`: the first matching row. -/
def findTask (db : DB) (id : String) : Option Task :=
  db.tasks.find? (fun t => t.id = id)

/-- `SELECT * FROM sync_queue WHERE task_id = ?`: all entries of one record. -/
def entriesFor (db : DB) (taskId : String) : List SyncQueueItem :=
  db.queue.filter (fun q => q.task_id = taskId)

namespace TaskService

/-- Input of `createTask` (`Partial<Task>` restricted to the fields read). -/
structure CreateData where
  title : Option String
  description : Option String
  completed : Bool
deriving DecidableEq, Repr

/-- JavaScript `x || y` on an optional string: empty string is falsy. -/
def jsOrEmpty (x : Option String) : String :=
  match x with
  | none => ""
  | some s => s

/-- JavaScript `taskData.description || null`: an empty string collapses to null. -/
def jsDescrOrNull (x : Option String) : Option String :=
  match x with
  | none => none
  | some s => if s = "" then none else some s

/-- Embeds `TaskService.createTask`: validates the trimmed title, inserts the
task row with `sync_status = 'pending'`, and inserts a `create` queue entry
holding the field snapshot.  Returns `none` (the thrown
`Error('Title is required')`) and the unchanged store on a blank title. -/
def createTask (id queueId : String) (now : Nat) (taskData : CreateData)
    (db : DB) : Option Task × DB :=
  let title := jsTrim (jsOrEmpty taskData.title)
  if title = "" then (none, db)
  else
    let description := jsDescrOrNull taskData.description
    let t : Task :=
      { id := id, title := title, description := description
        completed := taskData.completed, created_at := now, updated_at := now
        is_deleted := false, sync_status := .pending
        server_id := none, last_synced_at := none }
    let snap : Snapshot :=
      { id := id, title := title, description := description
        completed := taskData.completed, created_at := now, updated_at := now
        is_deleted := false }
    let entry : SyncQueueItem :=
      { id := queueId, task_id := id, operation := .create, data := snap
        created_at := now, retry_count := 0, error_message := none }
    (some t, { tasks := db.tasks ++ [t], queue := db.queue ++ [entry] })

/-- Input of `updateTask` (`Partial<Task>`): `none` on a field means the field
is absent (`!== undefined` is false).  `description` can be explicitly null,
hence the nested option. -/
structure UpdateData where
  title : Option String
  description : Option (Option String)
  completed : Option Bool
deriving DecidableEq, Repr

/-- Embeds `TaskService.updateTask`: looks the row up, refuses soft-deleted
rows (returns `null`), merges present fields (the title is trimmed but not
validated here), sets `updated_at = now` and `sync_status = 'pending'`, and
inserts an `update` queue entry with the post-update snapshot. -/
def updateTask (id queueId : String) (now : Nat) (updates : UpdateData)
    (db : DB) : Option Task × DB :=
  match findTask db id with
  | none => (none, db)
  | some existing =>
    if existing.is_deleted then (none, db)
    else
      let title := match updates.title with
        | some s => jsTrim s
        | none => existing.title
      let description := match updates.description with
        | some d => d
        | none => existing.description
      let completed := match updates.completed with
        | some c => c
        | none => existing.completed
      let upd : Task → Task := fun t =>
        if t.id = id then
          { t with title := title, description := description
                   completed := completed, updated_at := now
                   sync_status := .pending }
        else t
      let snap : Snapshot :=
        { id := id, title := title, description := description
          completed := completed, created_at := existing.created_at
          updated_at := now, is_deleted := false }
      let entry : SyncQueueItem :=
        { id := queueId, task_id := id, operation := .update, data := snap
          created_at := now, retry_count := 0, error_message := none }
      let tasks := db.tasks.map upd
      let db := { tasks := tasks, queue := db.queue ++ [entry] }
      (findTask db id, db)

/-- Embeds `TaskService.deleteTask`: refuses missing or already soft-deleted
rows (returns `false`), otherwise sets `is_deleted = 1`,
`sync_status = 'pending'`, `updated_at = now` and inserts a `delete` queue
entry holding the last known data. -/
def deleteTask (id queueId : String) (now : Nat) (db : DB) : Bool × DB :=
  match findTask db id with
  | none => (false, db)
  | some existing =>
    if existing.is_deleted then (false, db)
    else
      let upd : Task → Task := fun t =>
        if t.id = id then
          { t with is_deleted := true, updated_at := now
                   sync_status := .pending }
        else t
      let snap : Snapshot :=
        { id := id, title := existing.title
          description := existing.description
          completed := existing.completed, created_at := existing.created_at
          updated_at := now, is_deleted := true }
      let entry : SyncQueueItem :=
        { id := queueId, task_id := id, operation := .delete, data := snap
          created_at := now, retry_count := 0, error_message := none }
      (true, { tasks := db.tasks.map upd, queue := db.queue ++ [entry] })

/-- Embeds `TaskService.getTask`: hides soft-deleted rows behind `null`. -/
def getTask (db : DB) (id : String) : Option Task :=
  match findTask db id with
  | none => none
  | some t => if t.is_deleted then none else t

/-- Embeds `TaskService.getAllTasks`:
`SELECT * FROM tasks WHERE is_deleted = 0 ORDER BY updated_at DESC`. -/
def getAllTasks (db : DB) : List Task :=
  (db.tasks.filter (fun t => t.is_deleted = false)).insertionSort
    (fun a b => b.updated_at ≤ a.updated_at)

end TaskService

namespace SyncService

/-- Configuration of the orchestrator: `SYNC_BATCH_SIZE` (default 50) and
`SYNC_RETRY_ATTEMPTS` (default 3). -/
structure SyncConfig where
  batchSize : Nat
  maxRetries : Nat
deriving DecidableEq, Repr

/-- The defaults `DEFAULT_BATCH = 50`, `DEFAULT_RETRIES = 3`. -/
def defaultConfig : SyncConfig := ⟨50, 3⟩

/-- Per-item status in a batch response: 'success' | 'conflict' | 'error'. -/
inductive ItemStatus where
  | success
  | conflict
  | error
deriving DecidableEq, Repr

/-- The `resolved_data` object of a response item (`Partial<Task>`); only
the fields the orchestrator or the claims look at are listed, each `none`
when the key is absent. -/
structure ResolvedData where
  server_id : Option String
  title : Option String
  updated_at : Option Nat
deriving DecidableEq, Repr

/-- One element of `processed_items` in a `BatchSyncResponse`. -/
structure ProcessedItem where
  client_id : String
  server_id : Option String
  status : ItemStatus
  resolved_data : Option ResolvedData
  error : Option String
deriving DecidableEq, Repr

/-- One row of the aggregate `errors` list of a `SyncResult`. -/
structure SyncError where
  task_id : String
  operation : String
  error : String
  timestamp : Nat
deriving DecidableEq, Repr

/-- The `SyncResult` returned by `sync()`. -/
structure SyncResult where
  success : Bool
  synced_items : Nat
  failed_items : Nat
  errors : List SyncError
deriving DecidableEq, Repr

/-- What one `processBatch` network call comes back with: a transport
failure (the thrown error's message), or a response body whose
`processed_items` may be missing (`batchResp && batchResp.processed_items`
guards for that). -/
inductive BatchOutcome where
  | transportFail (msg : String)
  | reply (processed : Option (List ProcessedItem))
deriving DecidableEq, Repr

/-- Embeds `fetchSyncQueueItems`:
`SELECT * FROM sync_queue ORDER BY created_at ASC`. -/
def fetchSyncQueueItems (db : DB) : List SyncQueueItem :=
  db.queue.insertionSort (fun a b => a.created_at ≤ b.created_at)

/-- The `server_id` that `updateSyncStatus` receives for an item: the spread
`{ server_id: pi.server_id, ...pi.resolved_data }` lets a `server_id` key
inside `resolved_data` override the top-level one. -/
def effectiveServerId (pi : ProcessedItem) : Option String :=
  match pi.resolved_data with
  | none => pi.server_id
  | some rd =>
    match rd.server_id with
    | some s => some s
    | none => pi.server_id

/-- Embeds `updateSyncStatus`: `UPDATE tasks SET sync_status, server_id,
last_synced_at WHERE id = taskId`, then, when the status is 'synced',
`DELETE FROM sync_queue WHERE task_id = taskId`.  Note that no other task
column (title, description, ...) is written. -/
def updateSyncStatus (now : Nat) (taskId : String) (status : SyncStatus)
    (serverId : Option String) (db : DB) : DB :=
  let tasks := db.tasks.map (fun t =>
    if t.id = taskId then
      { t with sync_status := status, server_id := serverId
               last_synced_at := some now }
    else t)
  let queue :=
    if status = .synced then db.queue.filter (fun q => ¬ q.task_id = taskId)
    else db.queue
  { tasks := tasks, queue := queue }

/-- Embeds `handleSyncError`: bumps `retry_count` and stores the error
message on the queue row, and once the new count reaches `maxRetries`
runs `UPDATE tasks SET sync_status = 'error'` for the record.  The queue
row is never deleted here. -/
def handleSyncError (cfg : SyncConfig) (item : SyncQueueItem) (msg : String)
    (db : DB) : DB :=
  let newRetry := item.retry_count + 1
  let queue := db.queue.map (fun q =>
    if q.id = item.id then
      { q with retry_count := newRetry, error_message := some msg }
    else q)
  let tasks :=
    if cfg.maxRetries ≤ newRetry then
      db.tasks.map (fun t =>
        if t.id = item.task_id then { t with sync_status := .error } else t)
    else db.tasks
  { tasks := tasks, queue := queue }

/-- Embeds the per-item branch of the response loop in `sync()`
(lines 59-77): 'success' and 'conflict' items are handled identically via
`updateSyncStatus(client_id, 'synced', {server_id, ...resolved_data})`;
'error' items are counted, reported, and routed into `handleSyncError` on
the first batch entry whose `task_id` matches `client_id`. -/
def processItem (cfg : SyncConfig) (now : Nat) (batch : List SyncQueueItem)
    (acc : SyncResult × DB) (pi : ProcessedItem) : SyncResult × DB :=
  let (res, db) := acc
  match pi.status with
  | .success =>
    ({ res with synced_items := res.synced_items + 1 },
     updateSyncStatus now pi.client_id .synced (effectiveServerId pi) db)
  | .conflict =>
    ({ res with synced_items := res.synced_items + 1 },
     updateSyncStatus now pi.client_id .synced (effectiveServerId pi) db)
  | .error =>
    let res :=
      { res with failed_items := res.failed_items + 1, success := false
                 errors := res.errors ++
                   [⟨pi.client_id, "sync", pi.error.getD "unknown", now⟩] }
    match batch.find? (fun it => it.task_id = pi.client_id) with
    | some queueItem =>
      (res, handleSyncError cfg queueItem (pi.error.getD "sync error") db)
    | none => (res, db)

/-- Embeds the catch branch of the batch loop: on a transport failure every
entry of the batch goes through retry bookkeeping and contributes one
aggregate error carrying its own queue operation. -/
def processTransportFail (cfg : SyncConfig) (now : Nat) (msg : String)
    (acc : SyncResult × DB) (batch : List SyncQueueItem) : SyncResult × DB :=
  batch.foldl (fun (acc : SyncResult × DB) item =>
    let (res, db) := acc
    ({ res with failed_items := res.failed_items + 1, success := false
                errors := res.errors ++ [⟨item.task_id, item.operation.toStr, msg, now⟩] },
     handleSyncError cfg item msg db)) acc

/-- Embeds one iteration of the batch loop body (`try`/`catch`): the batch
outcome is either a response body (whose `processed_items`, when present,
are folded through `processItem`) or a thrown transport error. -/
def processBatchOutcome (cfg : SyncConfig) (now : Nat)
    (batch : List SyncQueueItem) (outcome : BatchOutcome)
    (acc : SyncResult × DB) : SyncResult × DB :=
  match outcome with
  | .reply none => acc
  | .reply (some pis) => pis.foldl (processItem cfg now batch) acc
  | .transportFail msg => processTransportFail cfg now msg acc batch

/-- Splits the fetched items into consecutive batches of `b` items
(`items.slice(i, i + batchSize)` for `i = 0, b, 2b, ...`); the fuel is the
number of remaining items, enough whenever `1 ≤ b`. -/
def batchesAux (b : Nat) : Nat → List SyncQueueItem → List (List SyncQueueItem)
  | 0, _ => []
  | _, [] => []
  | fuel + 1, items => items.take b :: batchesAux b fuel (items.drop b)

/-- The list of batches `sync()` dispatches for a given item list. -/
def batches (b : Nat) (items : List SyncQueueItem) : List (List SyncQueueItem) :=
  batchesAux b items.length items

/-- Runs the batch loop: each dispatched batch consumes the head of the
oracle of network outcomes (an exhausted oracle behaves as a transport
failure, mirroring a dead network). -/
def runBatches (cfg : SyncConfig) (now : Nat) :
    List (List SyncQueueItem) → List BatchOutcome → SyncResult × DB →
    SyncResult × DB
  | [], _, acc => acc
  | batch :: rest, oracle, acc =>
    let outcome := oracle.headD (.transportFail "Network Error")
    runBatches cfg now rest oracle.tail
      (processBatchOutcome cfg now batch outcome acc)

/-- Embeds `sync()`.  Connectivity (the `checkConnectivity()` probe) and the
per-batch network outcomes are inputs, since they live beyond the store:
offline short-circuits with the single synthetic "Offline" error before any
table is read; otherwise all queue entries are fetched oldest-first, cut
into `batchSize` chunks, and processed strictly in order. -/
def sync (cfg : SyncConfig) (connected : Bool) (oracle : List BatchOutcome)
    (now : Nat) (db : DB) : SyncResult × DB :=
  let result : SyncResult := ⟨true, 0, 0, []⟩
  if ¬ connected then
    ({ result with success := false, errors := [⟨"", "sync", "Offline", now⟩] }, db)
  else
    let items := fetchSyncQueueItems db
    if items.isEmpty then (result, db)
    else runBatches cfg now (batches cfg.batchSize items) oracle (result, db)

end SyncService

namespace Routes

/-- A JSON value arriving in a request body field, as far as the route's
`typeof title !== 'string'` test can distinguish it. -/
inductive JVal where
  | jstr (s : String)
  | jnonstring
deriving DecidableEq, Repr

/-- The body of a `PUT /:id` request (each field `none` when absent). -/
structure PutBody where
  title : Option JVal
  description : Option (Option String)
  completed : Option Bool
deriving DecidableEq, Repr

/-- A route response, reduced to the cases the task router produces. -/
inductive RouteResp where
  | ok (t : Task)
  | okDeleted
  | badRequest (msg : String)
  | notFound (msg : String)
deriving DecidableEq, Repr

/-- The HTTP status code a response is sent with. -/
def RouteResp.status : RouteResp → Nat
  | .ok _ => 200
  | .okDeleted => 200
  | .badRequest _ => 400
  | .notFound _ => 404

/-- Error taxonomy of spec section 7, named after its words: a
`ValidationError` is bad input to a mutation, `NotFound` means the id does
not exist, `Gone` means the id exists but is soft-deleted. -/
inductive SpecErrKind where
  | validationError
  | notFound
  | gone
deriving DecidableEq, Repr

/-- Classifies a route response into the spec's error taxonomy: the router's
400 is its `ValidationError` and its 404 'not found' is its `NotFound`;
no response of the router maps to `Gone`. -/
def RouteResp.errKind : RouteResp → Option SpecErrKind
  | .badRequest _ => some .validationError
  | .notFound _ => some .notFound
  | _ => none

/-- Embeds the `PUT /:id` handler of `createTaskRouter`: a present title
must be a non-empty-after-trim string or the handler answers 400 before
touching the store; otherwise the merged field set goes to
`TaskService.updateTask`, whose `null` becomes a 404. -/
def putTask (id queueId : String) (now : Nat) (body : PutBody) (db : DB) :
    RouteResp × DB :=
  let go : Option String → RouteResp × DB := fun titleOpt =>
    let updates : TaskService.UpdateData :=
      { title := titleOpt, description := body.description
        completed := body.completed }
    match TaskService.updateTask id queueId now updates db with
    | (none, db) => (.notFound "Task not found", db)
    | (some t, db) => (.ok t, db)
  match body.title with
  | none => go none
  | some (.jstr s) =>
    if jsTrim s = "" then
      (.badRequest "If provided, title must be a non-empty string", db)
    else go (some (jsTrim s))
  | some .jnonstring =>
    (.badRequest "If provided, title must be a non-empty string", db)

/-- Embeds the `DELETE /:id` handler: `TaskService.deleteTask` returning
`false` becomes a 404, `true` a success message. -/
def deleteRoute (id queueId : String) (now : Nat) (db : DB) :
    RouteResp × DB :=
  match TaskService.deleteTask id queueId now db with
  | (false, db) => (.notFound "Task not found or already deleted", db)
  | (true, db) => (.okDeleted, db)

end Routes

/-- One observable transition of the system: a Task Mutator call (create,
update or delete, including their failing runs, which leave the store as it
was) or one whole `sync()` run with arbitrary connectivity and network
outcomes.  `createStep` carries the freshness of the uuid the caller
generated (spec: ids are assigned at creation and never reused; the `tasks`
primary key would reject a duplicate insert). -/
inductive Step : DB → DB → Prop where
  | createStep (id queueId : String) (now : Nat)
      (data : TaskService.CreateData) (db : DB)
      (hfresh : ∀ t ∈ db.tasks, ¬ t.id = id) :
      Step db (TaskService.createTask id queueId now data db).2
  | updateStep (id queueId : String) (now : Nat)
      (upd : TaskService.UpdateData) (db : DB) :
      Step db (TaskService.updateTask id queueId now upd db).2
  | deleteStep (id queueId : String) (now : Nat) (db : DB) :
      Step db (TaskService.deleteTask id queueId now db).2
  | syncStep (cfg : SyncService.SyncConfig) (connected : Bool)
      (oracle : List SyncService.BatchOutcome) (now : Nat) (db : DB) :
      Step db (SyncService.sync cfg connected oracle now db).2

/-- The stores reachable from the empty store by mutator calls and sync
runs. -/
def Reachable (db : DB) : Prop :=
  Relation.ReflTransGen Step DB.empty db

/-- The status/queue invariant as the spec states it: 'pending' or 'error'
records own at least one queue entry, 'synced' records own none. -/
def StatusQueueInvariant (db : DB) : Prop :=
  ∀ t ∈ db.tasks,
    ((t.sync_status = .pending ∨ t.sync_status = .error) →
      ∃ q ∈ db.queue, q.task_id = t.id) ∧
    (t.sync_status = .synced → ∀ q ∈ db.queue, ¬ q.task_id = t.id)

/-- The part of the status/queue invariant the code maintains: 'pending'
records own at least one queue entry, 'synced' records own none ('error'
records are not constrained). -/
def PendingSyncedInvariant (db : DB) : Prop :=
  ∀ t ∈ db.tasks,
    (t.sync_status = .pending → ∃ q ∈ db.queue, q.task_id = t.id) ∧
    (t.sync_status = .synced → ∀ q ∈ db.queue, ¬ q.task_id = t.id)

instance (db : DB) : Decidable (StatusQueueInvariant db) := by
  unfold StatusQueueInvariant; infer_instance

instance (db : DB) : Decidable (PendingSyncedInvariant db) := by
  unfold PendingSyncedInvariant; infer_instance

instance : IsTotal SyncQueueItem (fun a b => a.created_at ≤ b.created_at) :=
  ⟨fun a b => Nat.le_total a.created_at b.created_at⟩

instance : IsTrans SyncQueueItem (fun a b => a.created_at ≤ b.created_at) :=
  ⟨fun _ _ _ hab hbc => Nat.le_trans hab hbc⟩

/-- Trace fixture: task "A" created while offline (its `create` entry "q1"
is enqueued at time 1). -/
def dbStep1 : DB :=
  (TaskService.createTask "A" "q1" 1 ⟨some "Task A", none, false⟩ DB.empty).2

/-- Trace fixture: one connected sync run whose only batch hits a transport
failure (`retry_count` 0 → 1). -/
def dbStep2 : DB :=
  (SyncService.sync ⟨50, 3⟩ true [.transportFail "ECONNREFUSED"] 2 dbStep1).2

/-- Trace fixture: a second transport failure (`retry_count` 1 → 2). -/
def dbStep3 : DB :=
  (SyncService.sync ⟨50, 3⟩ true [.transportFail "ECONNREFUSED"] 3 dbStep2).2

/-- Trace fixture: a third transport failure (`retry_count` 2 → 3 =
`maxRetries`, so the record's `sync_status` becomes 'error'). -/
def dbStep4 : DB :=
  (SyncService.sync ⟨50, 3⟩ true [.transportFail "ECONNREFUSED"] 4 dbStep3).2

/-- Trace fixture: a fourth connected sync run over the same store; the
queue is re-fetched unfiltered, so the maxed-out entry is dispatched again
(`retry_count` 3 → 4). -/
def dbStep5 : DB :=
  (SyncService.sync ⟨50, 3⟩ true [.transportFail "ECONNREFUSED"] 5 dbStep4).2

/-- Trace fixture: after two transport failures the still-pending task "A"
is updated locally, enqueueing a second entry "q2" at time 5 (the stale
"q1" keeps `retry_count = 2`). -/
def dbUpd : DB :=
  (TaskService.updateTask "A" "q2" 5 ⟨some "Task A v2", none, none⟩ dbStep3).2

/-- Trace fixture: a connected sync over both entries of task "A" whose
response reports the first item 'success' (pruning every queue entry of
"A" and marking it 'synced') and the second item 'error' (running retry
bookkeeping on the stale "q1", whose bumped count 3 reaches `maxRetries`
and flips "A" to 'error' — with zero queue entries left). -/
def dbMixed : DB :=
  (SyncService.sync ⟨50, 3⟩ true
    [.reply (some
      [⟨"A", some "srv-1", .success, none, none⟩,
       ⟨"A", some "srv-1", .error, none, some "server rejected"⟩])] 6 dbUpd).2

/-- C5: an offline `sync()` returns `success = false`, zero synced items and
the single synthetic Offline error, and leaves the store untouched. -/
theorem claim_C5_offline_short_circuit (cfg : SyncService.SyncConfig)
    (oracle : List SyncService.BatchOutcome) (now : Nat) (db : DB) :
    SyncService.sync cfg false oracle now db =
      (⟨false, 0, 0, [⟨"", "sync", "Offline", now⟩]⟩, db) := rfl

/-- C10: a soft-deleted record is hidden from reads: `getTask` answers
`null` for it and `getAllTasks` never lists a soft-deleted record. -/
theorem claim_C10_soft_delete_hidden (db : DB) (id : String) (t : Task)
    (h1 : findTask db id = some t) (h2 : t.is_deleted = true) :
    TaskService.getTask db id = none ∧
      ∀ u ∈ TaskService.getAllTasks db, u.is_deleted = false := by
  constructor
  · unfold TaskService.getTask
    rw [h1]
    simp [h2]
  · intro u hu
    unfold TaskService.getAllTasks at hu
    rw [List.mem_insertionSort] at hu
    simpa using (List.mem_filter.mp hu).2

/-- C10 witness: in a store holding exactly one, soft-deleted, record,
`getTask` answers `null` and `getAllTasks` lists nothing deleted. -/
theorem claim_C10_witness :
    TaskService.getTask
        ⟨[⟨"t1", "Old", none, false, 1, 2, true, .pending, none, none⟩], []⟩
        "t1" = none ∧
      ∀ u ∈ TaskService.getAllTasks
        ⟨[⟨"t1", "Old", none, false, 1, 2, true, .pending, none, none⟩], []⟩,
        u.is_deleted = false :=
  claim_C10_soft_delete_hidden _ "t1"
    ⟨"t1", "Old", none, false, 1, 2, true, .pending, none, none⟩
    (by decide) rfl

/-- C6: a `PUT /:id` whose body carries a title that is empty after trimming
is rejected with the 400 validation answer before the store is read or
written: no record update, no queue entry, no empty title stored. -/
theorem claim_C6_empty_title_rejected (id queueId : String) (now : Nat)
    (body : Routes.PutBody) (db : DB) (s : String)
    (h1 : body.title = some (.jstr s)) (h2 : jsTrim s = "") :
    Routes.putTask id queueId now body db =
      (.badRequest "If provided, title must be a non-empty string", db) := by
  unfold Routes.putTask
  rw [h1]
  simp [h2]

/-- C6 witness: updating a live record with a whitespace-only title is
answered 400 and the store keeps its former contents. -/
theorem claim_C6_witness :
    Routes.putTask "t1" "q2" 7 ⟨some (.jstr "   "), none, none⟩
        ⟨[⟨"t1", "Keep", none, false, 1, 1, false, .pending, none, none⟩],
         [⟨"q1", "t1", .create, ⟨"t1", "Keep", none, false, 1, 1, false⟩,
           1, 0, none⟩]⟩ =
      (.badRequest "If provided, title must be a non-empty string",
        ⟨[⟨"t1", "Keep", none, false, 1, 1, false, .pending, none, none⟩],
         [⟨"q1", "t1", .create, ⟨"t1", "Keep", none, false, 1, 1, false⟩,
           1, 0, none⟩]⟩) :=
  claim_C6_empty_title_rejected "t1" "q2" 7 _ _ "   " rfl (by decide)

/-- C3: retry bookkeeping bumps the entry's `retry_count` and stores the
error message without ever deleting the entry; when the bumped count
reaches `maxRetries` the record's `sync_status` becomes 'error', and below
the maximum the `tasks` table is left untouched (a 'pending' record stays
'pending'). -/
theorem claim_C3_retry_bookkeeping (cfg : SyncService.SyncConfig)
    (item : SyncQueueItem) (msg : String) (db : DB) :
    ((SyncService.handleSyncError cfg item msg db).queue.map (fun q => q.id) =
        db.queue.map (fun q => q.id)) ∧
    (∀ q ∈ (SyncService.handleSyncError cfg item msg db).queue,
        q.id = item.id →
          q.retry_count = item.retry_count + 1 ∧ q.error_message = some msg) ∧
    (cfg.maxRetries ≤ item.retry_count + 1 →
        ∀ t ∈ (SyncService.handleSyncError cfg item msg db).tasks,
          t.id = item.task_id → t.sync_status = .error) ∧
    (item.retry_count + 1 < cfg.maxRetries →
        (SyncService.handleSyncError cfg item msg db).tasks = db.tasks) := by
  refine ⟨?_, ?_, ?_, ?_⟩
  · simp only [SyncService.handleSyncError, List.map_map]
    apply List.map_congr_left
    intro q _
    by_cases h : q.id = item.id <;> simp [h]
  · intro q hq hqid
    simp only [SyncService.handleSyncError, List.mem_map] at hq
    obtain ⟨q0, _, rfl⟩ := hq
    by_cases h : q0.id = item.id
    · simp [h]
    · simp only [if_neg h] at hqid ⊢
      exact absurd hqid h
  · intro hmax t ht htid
    simp only [SyncService.handleSyncError, if_pos hmax, List.mem_map] at ht
    obtain ⟨t0, _, rfl⟩ := ht
    by_cases h : t0.id = item.task_id
    · simp [h]
    · simp only [if_neg h] at htid ⊢
      exact absurd htid h
  · intro hlt
    simp only [SyncService.handleSyncError, if_neg (Nat.not_le.mpr hlt)]

/-- C3 witness: a second failure (`retry_count` 1 → 2) below the default
maximum of 3 keeps the record table untouched, and a third failure
(2 → 3) flips the record to 'error' while the entry survives. -/
theorem claim_C3_witness :
    ((SyncService.handleSyncError ⟨50, 3⟩
        ⟨"q1", "A", .create, ⟨"A", "T", none, false, 1, 1, false⟩, 1, 2, none⟩
        "boom"
        ⟨[⟨"A", "T", none, false, 1, 1, false, .pending, none, none⟩],
         [⟨"q1", "A", .create, ⟨"A", "T", none, false, 1, 1, false⟩,
           1, 2, none⟩]⟩).queue.map (fun q => q.id) = ["q1"]) ∧
    (∀ t ∈ (SyncService.handleSyncError ⟨50, 3⟩
        ⟨"q1", "A", .create, ⟨"A", "T", none, false, 1, 1, false⟩, 1, 2, none⟩
        "boom"
        ⟨[⟨"A", "T", none, false, 1, 1, false, .pending, none, none⟩],
         [⟨"q1", "A", .create, ⟨"A", "T", none, false, 1, 1, false⟩,
           1, 2, none⟩]⟩).tasks,
      t.id = "A" → t.sync_status = .error) :=
  ⟨(claim_C3_retry_bookkeeping ⟨50, 3⟩
      ⟨"q1", "A", .create, ⟨"A", "T", none, false, 1, 1, false⟩, 1, 2, none⟩
      "boom"
      ⟨[⟨"A", "T", none, false, 1, 1, false, .pending, none, none⟩],
       [⟨"q1", "A", .create, ⟨"A", "T", none, false, 1, 1, false⟩,
         1, 2, none⟩]⟩).1,
   (claim_C3_retry_bookkeeping ⟨50, 3⟩
      ⟨"q1", "A", .create, ⟨"A", "T", none, false, 1, 1, false⟩, 1, 2, none⟩
      "boom"
      ⟨[⟨"A", "T", none, false, 1, 1, false, .pending, none, none⟩],
       [⟨"q1", "A", .create, ⟨"A", "T", none, false, 1, 1, false⟩,
         1, 2, none⟩]⟩).2.2.1 (by decide)⟩

/-- C2: when the orchestrator processes a 'success' response item, every
record row matching the item's `client_id` is marked 'synced', gets the
response's `server_id` and a fresh `last_synced_at`, every queue entry of
that record id is deleted, and the synced counter grows by one. -/
theorem claim_C2_success_item (cfg : SyncService.SyncConfig) (now : Nat)
    (batch : List SyncQueueItem) (res : SyncService.SyncResult) (db : DB)
    (pi : SyncService.ProcessedItem) (h : pi.status = .success) :
    (∀ t ∈ (SyncService.processItem cfg now batch (res, db) pi).2.tasks,
        t.id = pi.client_id →
          t.sync_status = .synced ∧
          t.server_id = SyncService.effectiveServerId pi ∧
          t.last_synced_at = some now) ∧
    (∀ q ∈ (SyncService.processItem cfg now batch (res, db) pi).2.queue,
        ¬ q.task_id = pi.client_id) ∧
    (SyncService.processItem cfg now batch (res, db) pi).1.synced_items =
      res.synced_items + 1 := by
  have e : SyncService.processItem cfg now batch (res, db) pi =
      ({ res with synced_items := res.synced_items + 1 },
        SyncService.updateSyncStatus now pi.client_id .synced
          (SyncService.effectiveServerId pi) db) := by
    simp [SyncService.processItem, h]
  rw [e]
  refine ⟨?_, ?_, rfl⟩
  · intro t ht htid
    simp only [SyncService.updateSyncStatus, List.mem_map] at ht
    obtain ⟨t0, _, rfl⟩ := ht
    by_cases h0 : t0.id = pi.client_id
    · simp [h0]
    · simp only [if_neg h0] at htid ⊢
      exact absurd htid h0
  · intro q hq
    simp only [SyncService.updateSyncStatus, if_pos rfl] at hq
    simpa using (List.mem_filter.mp hq).2

/-- C2 witness: Scenario B — the pending "Buy milk" task and its single
queue entry, a response item `status: success, server_id: "srv-1"`: the
record comes out 'synced' with `server_id = "srv-1"`, the queue entry for it
is gone, and one item counts as synced. -/
theorem claim_C2_witness :
    (∀ t ∈ (SyncService.processItem ⟨50, 3⟩ 9
        [⟨"q1", "t1", .create, ⟨"t1", "Buy milk", none, false, 1, 1, false⟩,
          1, 0, none⟩]
        (⟨true, 0, 0, []⟩,
          ⟨[⟨"t1", "Buy milk", none, false, 1, 1, false, .pending, none, none⟩],
           [⟨"q1", "t1", .create, ⟨"t1", "Buy milk", none, false, 1, 1, false⟩,
             1, 0, none⟩]⟩)
        ⟨"t1", some "srv-1", .success, none, none⟩).2.tasks,
      t.id = "t1" →
        t.sync_status = .synced ∧
        t.server_id = SyncService.effectiveServerId
          ⟨"t1", some "srv-1", .success, none, none⟩ ∧
        t.last_synced_at = some 9) ∧
    (∀ q ∈ (SyncService.processItem ⟨50, 3⟩ 9
        [⟨"q1", "t1", .create, ⟨"t1", "Buy milk", none, false, 1, 1, false⟩,
          1, 0, none⟩]
        (⟨true, 0, 0, []⟩,
          ⟨[⟨"t1", "Buy milk", none, false, 1, 1, false, .pending, none, none⟩],
           [⟨"q1", "t1", .create, ⟨"t1", "Buy milk", none, false, 1, 1, false⟩,
             1, 0, none⟩]⟩)
        ⟨"t1", some "srv-1", .success, none, none⟩).2.queue,
      ¬ q.task_id = "t1") ∧
    (SyncService.processItem ⟨50, 3⟩ 9
        [⟨"q1", "t1", .create, ⟨"t1", "Buy milk", none, false, 1, 1, false⟩,
          1, 0, none⟩]
        (⟨true, 0, 0, []⟩,
          ⟨[⟨"t1", "Buy milk", none, false, 1, 1, false, .pending, none, none⟩],
           [⟨"q1", "t1", .create, ⟨"t1", "Buy milk", none, false, 1, 1, false⟩,
             1, 0, none⟩]⟩)
        ⟨"t1", some "srv-1", .success, none, none⟩).1.synced_items = 0 + 1 :=
  claim_C2_success_item ⟨50, 3⟩ 9
    [⟨"q1", "t1", .create, ⟨"t1", "Buy milk", none, false, 1, 1, false⟩,
      1, 0, none⟩]
    ⟨true, 0, 0, []⟩
    ⟨[⟨"t1", "Buy milk", none, false, 1, 1, false, .pending, none, none⟩],
     [⟨"q1", "t1", .create, ⟨"t1", "Buy milk", none, false, 1, 1, false⟩,
       1, 0, none⟩]⟩
    ⟨"t1", some "srv-1", .success, none, none⟩ rfl

/-- C1 counterexample: a conflict response item carrying
`resolved_data.title = "Server title"` leaves the local record's title at
"Local title" — `updateSyncStatus` never writes the title column — while
the record is still marked 'synced' and its queue entries are pruned; the
claim says the title becomes "Server title". -/
theorem claim_C1_counterexample :
    ((findTask (SyncService.sync ⟨50, 3⟩ true
        [.reply (some [⟨"t1", some "srv-1", .conflict,
          some ⟨none, some "Server title", some 9⟩, none⟩])] 5
        ⟨[⟨"t1", "Local title", none, false, 1, 2, false, .pending, none, none⟩],
         [⟨"q1", "t1", .update, ⟨"t1", "Local title", none, false, 1, 2, false⟩,
           2, 0, none⟩]⟩).2 "t1").map (fun t => t.title) =
      some "Local title") ∧
    ¬ ((findTask (SyncService.sync ⟨50, 3⟩ true
        [.reply (some [⟨"t1", some "srv-1", .conflict,
          some ⟨none, some "Server title", some 9⟩, none⟩])] 5
        ⟨[⟨"t1", "Local title", none, false, 1, 2, false, .pending, none, none⟩],
         [⟨"q1", "t1", .update, ⟨"t1", "Local title", none, false, 1, 2, false⟩,
           2, 0, none⟩]⟩).2 "t1").map (fun t => t.title) =
      some "Server title") ∧
    ((findTask (SyncService.sync ⟨50, 3⟩ true
        [.reply (some [⟨"t1", some "srv-1", .conflict,
          some ⟨none, some "Server title", some 9⟩, none⟩])] 5
        ⟨[⟨"t1", "Local title", none, false, 1, 2, false, .pending, none, none⟩],
         [⟨"q1", "t1", .update, ⟨"t1", "Local title", none, false, 1, 2, false⟩,
           2, 0, none⟩]⟩).2 "t1").map (fun t => t.sync_status) =
      some .synced) ∧
    entriesFor (SyncService.sync ⟨50, 3⟩ true
        [.reply (some [⟨"t1", some "srv-1", .conflict,
          some ⟨none, some "Server title", some 9⟩, none⟩])] 5
        ⟨[⟨"t1", "Local title", none, false, 1, 2, false, .pending, none, none⟩],
         [⟨"q1", "t1", .update, ⟨"t1", "Local title", none, false, 1, 2, false⟩,
           2, 0, none⟩]⟩).2 "t1" = [] := by decide

/-- C1 amended: a 'conflict' response item is handled exactly like a
'success' one — matching records are marked 'synced' with the response's
`server_id` and a fresh `last_synced_at`, and the record's queue entries
are pruned — but the `resolved_data` payload is not applied to the record:
every stored title is left as it was. -/
theorem claim_C1_conflict_like_success (cfg : SyncService.SyncConfig)
    (now : Nat) (batch : List SyncQueueItem) (res : SyncService.SyncResult)
    (db : DB) (pi : SyncService.ProcessedItem) (h : pi.status = .conflict) :
    ((SyncService.processItem cfg now batch (res, db) pi).2.tasks.map
        (fun t => t.title) = db.tasks.map (fun t => t.title)) ∧
    (∀ t ∈ (SyncService.processItem cfg now batch (res, db) pi).2.tasks,
        t.id = pi.client_id →
          t.sync_status = .synced ∧
          t.server_id = SyncService.effectiveServerId pi ∧
          t.last_synced_at = some now) ∧
    (∀ q ∈ (SyncService.processItem cfg now batch (res, db) pi).2.queue,
        ¬ q.task_id = pi.client_id) ∧
    (SyncService.processItem cfg now batch (res, db) pi).1.synced_items =
      res.synced_items + 1 := by
  have e : SyncService.processItem cfg now batch (res, db) pi =
      ({ res with synced_items := res.synced_items + 1 },
        SyncService.updateSyncStatus now pi.client_id .synced
          (SyncService.effectiveServerId pi) db) := by
    simp [SyncService.processItem, h]
  rw [e]
  refine ⟨?_, ?_, ?_, rfl⟩
  · simp only [SyncService.updateSyncStatus, List.map_map]
    apply List.map_congr_left
    intro t _
    by_cases h0 : t.id = pi.client_id <;> simp [h0]
  · intro t ht htid
    simp only [SyncService.updateSyncStatus, List.mem_map] at ht
    obtain ⟨t0, _, rfl⟩ := ht
    by_cases h0 : t0.id = pi.client_id
    · simp [h0]
    · simp only [if_neg h0] at htid ⊢
      exact absurd htid h0
  · intro q hq
    simp only [SyncService.updateSyncStatus, if_pos rfl] at hq
    simpa using (List.mem_filter.mp hq).2

/-- C1 amended witness: the Scenario C shaped conflict item applied to a
one-task store: all titles survive unchanged, the record is 'synced' with
the response's server id, its queue entries are gone, one item synced. -/
theorem claim_C1_witness :
    ((SyncService.processItem ⟨50, 3⟩ 5
        [⟨"q1", "t1", .update, ⟨"t1", "Local title", none, false, 1, 2, false⟩,
          2, 0, none⟩]
        (⟨true, 0, 0, []⟩,
          ⟨[⟨"t1", "Local title", none, false, 1, 2, false, .pending, none, none⟩],
           [⟨"q1", "t1", .update, ⟨"t1", "Local title", none, false, 1, 2, false⟩,
             2, 0, none⟩]⟩)
        ⟨"t1", some "srv-1", .conflict, some ⟨none, some "Server title", some 9⟩,
          none⟩).2.tasks.map (fun t => t.title) =
      ([⟨"t1", "Local title", none, false, 1, 2, false, .pending, none,
        none⟩] : List Task).map (fun t => t.title)) ∧
    (∀ t ∈ (SyncService.processItem ⟨50, 3⟩ 5
        [⟨"q1", "t1", .update, ⟨"t1", "Local title", none, false, 1, 2, false⟩,
          2, 0, none⟩]
        (⟨true, 0, 0, []⟩,
          ⟨[⟨"t1", "Local title", none, false, 1, 2, false, .pending, none, none⟩],
           [⟨"q1", "t1", .update, ⟨"t1", "Local title", none, false, 1, 2, false⟩,
             2, 0, none⟩]⟩)
        ⟨"t1", some "srv-1", .conflict, some ⟨none, some "Server title", some 9⟩,
          none⟩).2.tasks,
      t.id = "t1" →
        t.sync_status = .synced ∧
        t.server_id = SyncService.effectiveServerId
          ⟨"t1", some "srv-1", .conflict, some ⟨none, some "Server title", some 9⟩,
            none⟩ ∧
        t.last_synced_at = some 5) ∧
    (∀ q ∈ (SyncService.processItem ⟨50, 3⟩ 5
        [⟨"q1", "t1", .update, ⟨"t1", "Local title", none, false, 1, 2, false⟩,
          2, 0, none⟩]
        (⟨true, 0, 0, []⟩,
          ⟨[⟨"t1", "Local title", none, false, 1, 2, false, .pending, none, none⟩],
           [⟨"q1", "t1", .update, ⟨"t1", "Local title", none, false, 1, 2, false⟩,
             2, 0, none⟩]⟩)
        ⟨"t1", some "srv-1", .conflict, some ⟨none, some "Server title", some 9⟩,
          none⟩).2.queue,
      ¬ q.task_id = "t1") ∧
    (SyncService.processItem ⟨50, 3⟩ 5
        [⟨"q1", "t1", .update, ⟨"t1", "Local title", none, false, 1, 2, false⟩,
          2, 0, none⟩]
        (⟨true, 0, 0, []⟩,
          ⟨[⟨"t1", "Local title", none, false, 1, 2, false, .pending, none, none⟩],
           [⟨"q1", "t1", .update, ⟨"t1", "Local title", none, false, 1, 2, false⟩,
             2, 0, none⟩]⟩)
        ⟨"t1", some "srv-1", .conflict, some ⟨none, some "Server title", some 9⟩,
          none⟩).1.synced_items = 0 + 1 :=
  claim_C1_conflict_like_success ⟨50, 3⟩ 5
    [⟨"q1", "t1", .update, ⟨"t1", "Local title", none, false, 1, 2, false⟩,
      2, 0, none⟩]
    ⟨true, 0, 0, []⟩
    ⟨[⟨"t1", "Local title", none, false, 1, 2, false, .pending, none, none⟩],
     [⟨"q1", "t1", .update, ⟨"t1", "Local title", none, false, 1, 2, false⟩,
       2, 0, none⟩]⟩
    ⟨"t1", some "srv-1", .conflict, some ⟨none, some "Server title", some 9⟩,
      none⟩ rfl

/-- C7 counterexample: mutating a soft-deleted record fails with the same
`NotFound` answer (404) a missing id gets — not with a distinct `Gone`
error as the claim states: the PUT on the soft-deleted "t1" and the PUT on
an empty store share the status code. -/
theorem claim_C7_counterexample :
    ((Routes.putTask "t1" "q9" 5 ⟨none, none, none⟩
        ⟨[⟨"t1", "Old", none, false, 1, 2, true, .pending, none, none⟩],
         []⟩).1.errKind = some .notFound) ∧
    ¬ ((Routes.putTask "t1" "q9" 5 ⟨none, none, none⟩
        ⟨[⟨"t1", "Old", none, false, 1, 2, true, .pending, none, none⟩],
         []⟩).1.errKind = some .gone) ∧
    ((Routes.deleteRoute "t1" "q9" 5
        ⟨[⟨"t1", "Old", none, false, 1, 2, true, .pending, none, none⟩],
         []⟩).1.errKind = some .notFound) ∧
    ¬ ((Routes.deleteRoute "t1" "q9" 5
        ⟨[⟨"t1", "Old", none, false, 1, 2, true, .pending, none, none⟩],
         []⟩).1.errKind = some .gone) ∧
    (Routes.putTask "t1" "q9" 5 ⟨none, none, none⟩
        ⟨[⟨"t1", "Old", none, false, 1, 2, true, .pending, none, none⟩],
         []⟩).1.status =
      (Routes.putTask "t1" "q9" 5 ⟨none, none, none⟩ DB.empty).1.status := by
  decide

/-- C7 amended: for every record with `is_deleted = true`, every subsequent
update and delete fails — `updateTask` answers `null` and the PUT route
404 NotFound, `deleteTask` answers `false` and the DELETE route 404 — and
the store (record fields and queue) is left exactly as it was; the failure
is reported as `NotFound`, indistinguishable from a missing id, rather
than a distinct `Gone`. -/
theorem claim_C7_deleted_blocks_mutation (id queueId : String) (now : Nat)
    (upd : TaskService.UpdateData) (body : Routes.PutBody) (db : DB)
    (t : Task) (h1 : findTask db id = some t) (h2 : t.is_deleted = true)
    (h3 : body.title = none) :
    TaskService.updateTask id queueId now upd db = (none, db) ∧
    TaskService.deleteTask id queueId now db = (false, db) ∧
    Routes.putTask id queueId now body db =
      (.notFound "Task not found", db) ∧
    Routes.deleteRoute id queueId now db =
      (.notFound "Task not found or already deleted", db) := by
  have hu : ∀ u : TaskService.UpdateData,
      TaskService.updateTask id queueId now u db = (none, db) := by
    intro u
    unfold TaskService.updateTask
    rw [h1]
    simp [h2]
  have hd : TaskService.deleteTask id queueId now db = (false, db) := by
    unfold TaskService.deleteTask
    rw [h1]
    simp [h2]
  refine ⟨hu upd, hd, ?_, ?_⟩
  · unfold Routes.putTask
    rw [h3]
    simp only []
    rw [hu _]
  · unfold Routes.deleteRoute
    rw [hd]

/-- C7 amended witness: the soft-deleted "t1" rejects an update and a
delete, leaving its one-record store untouched. -/
theorem claim_C7_witness :
    TaskService.updateTask "t1" "q9" 5 ⟨none, none, some true⟩
        ⟨[⟨"t1", "Old", none, false, 1, 2, true, .pending, none, none⟩], []⟩ =
      (none,
        ⟨[⟨"t1", "Old", none, false, 1, 2, true, .pending, none, none⟩], []⟩) ∧
    TaskService.deleteTask "t1" "q9" 5
        ⟨[⟨"t1", "Old", none, false, 1, 2, true, .pending, none, none⟩], []⟩ =
      (false,
        ⟨[⟨"t1", "Old", none, false, 1, 2, true, .pending, none, none⟩], []⟩) ∧
    Routes.putTask "t1" "q9" 5 ⟨none, none, some true⟩
        ⟨[⟨"t1", "Old", none, false, 1, 2, true, .pending, none, none⟩], []⟩ =
      (.notFound "Task not found",
        ⟨[⟨"t1", "Old", none, false, 1, 2, true, .pending, none, none⟩], []⟩) ∧
    Routes.deleteRoute "t1" "q9" 5
        ⟨[⟨"t1", "Old", none, false, 1, 2, true, .pending, none, none⟩], []⟩ =
      (.notFound "Task not found or already deleted",
        ⟨[⟨"t1", "Old", none, false, 1, 2, true, .pending, none, none⟩], []⟩) :=
  claim_C7_deleted_blocks_mutation "t1" "q9" 5 ⟨none, none, some true⟩
    ⟨none, none, some true⟩
    ⟨[⟨"t1", "Old", none, false, 1, 2, true, .pending, none, none⟩], []⟩
    ⟨"t1", "Old", none, false, 1, 2, true, .pending, none, none⟩
    (by decide) rfl rfl

/-- Index `i` of an item list lands in batch number `i / b`: the chunking
`batchesAux` puts the element at index `i` into the chunk at index `i / b`
whenever the fuel covers the list. -/
theorem batchesAux_get (b : Nat) (hb : 1 ≤ b) (fuel : Nat) :
    ∀ (l : List SyncQueueItem) (i : Nat), l.length ≤ fuel →
      ∀ hi : i < l.length,
      ∃ c, (SyncService.batchesAux b fuel l)[i / b]? = some c ∧
        l.get ⟨i, hi⟩ ∈ c := by
  induction fuel with
  | zero =>
    intro l i hfuel hi
    omega
  | succ fuel ih =>
    intro l i hfuel hi
    match l with
    | [] => simp at hi
    | x :: xs =>
      have hstep : SyncService.batchesAux b (fuel + 1) (x :: xs) =
          (x :: xs).take b ::
            SyncService.batchesAux b fuel ((x :: xs).drop b) := rfl
      have hi0 : i < xs.length + 1 := by
        simpa using hi
      by_cases hib : i < b
      · refine ⟨(x :: xs).take b, ?_, ?_⟩
        · rw [Nat.div_eq_of_lt hib, hstep]
          simp
        · have hlen : i < ((x :: xs).take b).length := by
            rw [List.length_take]
            simp only [List.length_cons]
            omega
          have hsame : ((x :: xs).take b).get ⟨i, hlen⟩ =
              (x :: xs).get ⟨i, hi⟩ := by
            simp
          rw [← hsame]
          exact List.get_mem _ _ _
      · have hble : b ≤ i := Nat.le_of_not_lt hib
        have hi' : i - b < ((x :: xs).drop b).length := by
          simp only [List.length_drop, List.length_cons]
          omega
        have hfuel' : ((x :: xs).drop b).length ≤ fuel := by
          simp only [List.length_drop, List.length_cons]
          simp only [List.length_cons] at hfuel
          omega
        obtain ⟨c, hc, hm⟩ := ih ((x :: xs).drop b) (i - b) hfuel' hi'
        refine ⟨c, ?_, ?_⟩
        · rw [Nat.div_eq_sub_div (by omega) hble, hstep,
            List.getElem?_cons_succ]
          exact hc
        · have hsame : ((x :: xs).drop b).get ⟨i - b, hi'⟩ =
              (x :: xs).get ⟨i, hi⟩ := by
            simp only [List.get_eq_getElem, List.getElem_drop]
            congr 1
            omega
          rw [← hsame]
          exact hm

/-- The queue fetch is sorted by `created_at` (ascending). -/
theorem fetchSyncQueueItems_sorted (db : DB) :
    (SyncService.fetchSyncQueueItems db).Sorted
      (fun a b => a.created_at ≤ b.created_at) :=
  List.sorted_insertionSort _ _

/-- C9: with connectivity, entries are dispatched oldest first across the
sequential fixed-size batches: in the fetched (created_at-ascending) list,
an entry with a strictly earlier `created_at` sits at a smaller index, its
batch number `i / b` is no larger than the later entry's, and the batch at
that number indeed contains it. -/
theorem claim_C9_fifo_batches (db : DB) (b i j : Nat) (hb : 1 ≤ b)
    (hi : i < (SyncService.fetchSyncQueueItems db).length)
    (hj : j < (SyncService.fetchSyncQueueItems db).length)
    (hlt : ((SyncService.fetchSyncQueueItems db).get ⟨i, hi⟩).created_at <
        ((SyncService.fetchSyncQueueItems db).get ⟨j, hj⟩).created_at) :
    i < j ∧ i / b ≤ j / b ∧
      ∃ c, (SyncService.batches b (SyncService.fetchSyncQueueItems db))[i / b]? =
          some c ∧ (SyncService.fetchSyncQueueItems db).get ⟨i, hi⟩ ∈ c := by
  have hsorted := fetchSyncQueueItems_sorted db
  have hij : i < j := by
    rcases Nat.lt_trichotomy i j with h | h | h
    · exact h
    · subst h
      exact absurd hlt (lt_irrefl _)
    · have hle := hsorted.rel_get_of_lt
        (a := ⟨j, hj⟩) (b := ⟨i, hi⟩) (Fin.mk_lt_mk.mpr h)
      exact absurd hlt (not_lt.mpr hle)
  refine ⟨hij, Nat.div_le_div_right (Nat.le_of_lt hij), ?_⟩
  exact batchesAux_get b hb _ _ i (Nat.le_refl _) hi

/-- C9 witness: two entries enqueued at times 5 and 3; the fetch sorts them
to indices 1 and 0, so with batch size 1 the older one is in the earlier
batch (number 0), which contains it. -/
theorem claim_C9_witness :
    0 < 1 ∧ 0 / 1 ≤ 1 / 1 ∧
      ∃ c, (SyncService.batches 1 (SyncService.fetchSyncQueueItems
          ⟨[], [⟨"qa", "A", .create, ⟨"A", "a", none, false, 5, 5, false⟩,
                  5, 0, none⟩,
                ⟨"qb", "B", .create, ⟨"B", "b", none, false, 3, 3, false⟩,
                  3, 0, none⟩]⟩))[0 / 1]? = some c ∧
        (SyncService.fetchSyncQueueItems
          ⟨[], [⟨"qa", "A", .create, ⟨"A", "a", none, false, 5, 5, false⟩,
                  5, 0, none⟩,
                ⟨"qb", "B", .create, ⟨"B", "b", none, false, 3, 3, false⟩,
                  3, 0, none⟩]⟩).get ⟨0, by decide⟩ ∈ c :=
  claim_C9_fifo_batches
    ⟨[], [⟨"qa", "A", .create, ⟨"A", "a", none, false, 5, 5, false⟩,
            5, 0, none⟩,
          ⟨"qb", "B", .create, ⟨"B", "b", none, false, 3, 3, false⟩,
            3, 0, none⟩]⟩
    1 0 1 (by decide) (by decide) (by decide) (by decide)

/-- C4 counterexample: after three consecutive transport failures
(maxRetries = 3) the record is already 'error' and the entry's
`retry_count` is 3, yet a fourth connected `sync()` run dispatches the
entry again: the run reports one failed item and the entry's
`retry_count` becomes 4 — the claim says a fourth attempt is never made
and the count stays 3. -/
theorem claim_C4_counterexample :
    ((findTask dbStep4 "A").map (fun t => t.sync_status) = some .error) ∧
    (dbStep4.queue.map (fun q => q.retry_count) = [3]) ∧
    ((SyncService.sync ⟨50, 3⟩ true [.transportFail "ECONNREFUSED"] 5
        dbStep4).1.failed_items = 1) ∧
    (dbStep5.queue.map (fun q => q.retry_count) = [4]) := by decide

/-- C4 amended: the fetch does not filter by `retry_count` or
`sync_status`, so every queue entry — including one whose record is
already 'error' with `retry_count = maxRetries` — is part of some batch
that the next connected `sync()` run dispatches; its retry counter keeps
growing on further failures. -/
theorem claim_C4_maxed_entry_redispatched (cfg : SyncService.SyncConfig)
    (db : DB) (e : SyncQueueItem) (hb : 1 ≤ cfg.batchSize)
    (he : e ∈ db.queue) :
    ∃ c ∈ SyncService.batches cfg.batchSize
        (SyncService.fetchSyncQueueItems db), e ∈ c := by
  have hmem : e ∈ SyncService.fetchSyncQueueItems db := by
    unfold SyncService.fetchSyncQueueItems
    exact (List.mem_insertionSort _).mpr he
  obtain ⟨n, hn⟩ := List.mem_iff_get.mp hmem
  obtain ⟨c, hc, hm⟩ :=
    batchesAux_get cfg.batchSize hb _ _ n.1 (Nat.le_refl _) n.2
  refine ⟨c, List.getElem?_mem hc, ?_⟩
  rw [← hn]
  convert hm using 2

/-- C4 amended witness: the maxed-out entry of the three-failures trace
(`retry_count = 3`, record 'error') still belongs to a batch dispatched by
the fourth run. -/
theorem claim_C4_witness :
    ∃ c ∈ SyncService.batches 50 (SyncService.fetchSyncQueueItems dbStep4),
      (⟨"q1", "A", .create, ⟨"A", "Task A", none, false, 1, 1, false⟩,
        1, 3, some "ECONNREFUSED"⟩ : SyncQueueItem) ∈ c :=
  claim_C4_maxed_entry_redispatched ⟨50, 3⟩ dbStep4
    ⟨"q1", "A", .create, ⟨"A", "Task A", none, false, 1, 1, false⟩,
      1, 3, some "ECONNREFUSED"⟩
    (by decide) (by decide)

/-- A successful `createTask` (fresh id) preserves the pending/synced
queue invariant: the new pending record gets its own queue entry, and the
fresh id cannot collide with a synced record. -/
theorem inv_createTask (id queueId : String) (now : Nat)
    (data : TaskService.CreateData) (db : DB)
    (hfresh : ∀ t ∈ db.tasks, ¬ t.id = id)
    (h : PendingSyncedInvariant db) :
    PendingSyncedInvariant (TaskService.createTask id queueId now data db).2 := by
  unfold TaskService.createTask
  by_cases hv : jsTrim (TaskService.jsOrEmpty data.title) = ""
  · simpa [hv] using h
  · simp only [hv, if_false]
    intro t' ht'
    rcases List.mem_append.mp ht' with hold | hnew
    · refine ⟨?_, ?_⟩
      · intro hp
        obtain ⟨q, hq, hqt⟩ := (h t' hold).1 hp
        exact ⟨q, List.mem_append_left _ hq, hqt⟩
      · intro hs q hq
        rcases List.mem_append.mp hq with hq | hq
        · exact (h t' hold).2 hs q hq
        · rw [List.mem_singleton.mp hq]
          intro heq
          exact hfresh t' hold (by simpa using heq.symm)
    · rw [List.mem_singleton.mp hnew]
      refine ⟨?_, ?_⟩
      · intro _
        exact ⟨_, List.mem_append_right _ (List.mem_singleton_self _), rfl⟩
      · intro hs
        simp at hs

/-- Touching one record: mapping a function over the task rows that sets
the rows of one id to 'pending' and leaves every other row unchanged,
while appending one queue entry for that id, preserves the pending/synced
queue invariant. -/
theorem inv_touch (db : DB) (id : String) (f : Task → Task)
    (entry : SyncQueueItem)
    (hfid : ∀ t, (f t).id = t.id)
    (hfpend : ∀ t, t.id = id → (f t).sync_status = .pending)
    (hfkeep : ∀ t, ¬ t.id = id → f t = t)
    (hentry : entry.task_id = id)
    (h : PendingSyncedInvariant db) :
    PendingSyncedInvariant ⟨db.tasks.map f, db.queue ++ [entry]⟩ := by
  intro t' ht'
  simp only [List.mem_map] at ht'
  obtain ⟨t0, ht0, rfl⟩ := ht'
  by_cases h0 : t0.id = id
  · refine ⟨fun _ => ⟨entry, ?_, ?_⟩, fun hs => ?_⟩
    · exact List.mem_append_right _ (List.mem_singleton_self _)
    · rw [hentry, hfid, h0]
    · rw [hfpend t0 h0] at hs
      simp at hs
  · rw [hfkeep t0 h0]
    refine ⟨fun hp => ?_, fun hs q hq => ?_⟩
    · obtain ⟨q, hq, hqt⟩ := (h t0 ht0).1 hp
      exact ⟨q, List.mem_append_left _ hq, hqt⟩
    · rcases List.mem_append.mp hq with hq' | hq'
      · exact (h t0 ht0).2 hs q hq'
      · rw [List.mem_singleton.mp hq', hentry]
        intro heq
        exact h0 heq.symm

/-- Marking one record synced while pruning its queue entries: mapping a
function that turns the rows of one id 'synced' and keeps the others,
while filtering that id's entries out of the queue, preserves the
pending/synced queue invariant. -/
theorem inv_syncedPrune (db : DB) (cid : String) (g : Task → Task)
    (hgid : ∀ t, (g t).id = t.id)
    (hgsync : ∀ t, t.id = cid → (g t).sync_status = .synced)
    (hgkeep : ∀ t, ¬ t.id = cid → g t = t)
    (h : PendingSyncedInvariant db) :
    PendingSyncedInvariant
      ⟨db.tasks.map g, db.queue.filter (fun q => ¬ q.task_id = cid)⟩ := by
  intro t' ht'
  simp only [List.mem_map] at ht'
  obtain ⟨t0, ht0, rfl⟩ := ht'
  by_cases h0 : t0.id = cid
  · refine ⟨fun hp => ?_, fun _ q hq => ?_⟩
    · rw [hgsync t0 h0] at hp
      simp at hp
    · have hnot := (List.mem_filter.mp hq).2
      simp only [decide_eq_true_eq] at hnot
      rw [hgid, h0]
      exact hnot
  · rw [hgkeep t0 h0]
    refine ⟨fun hp => ?_, fun hs q hq => ?_⟩
    · obtain ⟨q, hq, hqt⟩ := (h t0 ht0).1 hp
      refine ⟨q, List.mem_filter.mpr ⟨hq, ?_⟩, hqt⟩
      simp only [decide_eq_true_eq]
      rw [hqt]
      exact h0
    · exact (h t0 ht0).2 hs q (List.mem_filter.mp hq).1

/-- Retry bookkeeping shape: replacing the task rows by any rows that keep
ids and never freshly introduce 'pending' or 'synced', while mapping a
`task_id`-preserving bump over the queue, preserves the pending/synced
queue invariant. -/
theorem inv_bumpQueue (db : DB) (tasks2 : List Task)
    (bump : SyncQueueItem → SyncQueueItem)
    (htasks : ∀ t2 ∈ tasks2, ∃ t0 ∈ db.tasks, t2.id = t0.id ∧
        (t2.sync_status = .pending → t0.sync_status = .pending) ∧
        (t2.sync_status = .synced → t0.sync_status = .synced))
    (hbump : ∀ q, (bump q).task_id = q.task_id)
    (h : PendingSyncedInvariant db) :
    PendingSyncedInvariant ⟨tasks2, db.queue.map bump⟩ := by
  intro t' ht'
  obtain ⟨t0, ht0, hid, hpend, hsync⟩ := htasks t' ht'
  refine ⟨fun hp => ?_, fun hs q' hq' => ?_⟩
  · obtain ⟨q, hq, hqt⟩ := (h t0 ht0).1 (hpend hp)
    refine ⟨bump q, List.mem_map_of_mem _ hq, ?_⟩
    rw [hbump q, hqt, hid]
  · obtain ⟨q0, hq0, rfl⟩ := List.mem_map.mp hq'
    rw [hbump q0, hid]
    exact (h t0 ht0).2 (hsync hs) q0 hq0

/-- An `updateTask` call preserves the pending/synced queue invariant: the
touched record becomes pending and gains a queue entry; every other record
keeps its entries. -/
theorem inv_updateTask (id queueId : String) (now : Nat)
    (upd : TaskService.UpdateData) (db : DB)
    (h : PendingSyncedInvariant db) :
    PendingSyncedInvariant (TaskService.updateTask id queueId now upd db).2 := by
  unfold TaskService.updateTask
  rcases hf : findTask db id with _ | existing
  · exact h
  · by_cases hd : existing.is_deleted = true
    · simpa [hd] using h
    · simp only [hd, if_false]
      exact inv_touch db id _ _
        (fun t => by by_cases h0 : t.id = id <;> simp [h0])
        (fun t h0 => by simp [h0])
        (fun t h0 => by simp [h0]) rfl h

/-- A `deleteTask` call preserves the pending/synced queue invariant, by
the same argument as `updateTask` (the soft-deleted record is set pending
and gains a `delete` entry). -/
theorem inv_deleteTask (id queueId : String) (now : Nat) (db : DB)
    (h : PendingSyncedInvariant db) :
    PendingSyncedInvariant (TaskService.deleteTask id queueId now db).2 := by
  unfold TaskService.deleteTask
  rcases hf : findTask db id with _ | existing
  · exact h
  · by_cases hd : existing.is_deleted = true
    · simpa [hd] using h
    · simp only [hd, if_false]
      exact inv_touch db id _ _
        (fun t => by by_cases h0 : t.id = id <;> simp [h0])
        (fun t h0 => by simp [h0])
        (fun t h0 => by simp [h0]) rfl h

/-- Marking a record synced in `updateSyncStatus` preserves the
pending/synced queue invariant. -/
theorem inv_updateSyncStatus (now : Nat) (cid : String) (sid : Option String)
    (db : DB) (h : PendingSyncedInvariant db) :
    PendingSyncedInvariant
      (SyncService.updateSyncStatus now cid .synced sid db) :=
  inv_syncedPrune db cid _
    (fun t => by by_cases h0 : t.id = cid <;> simp [h0])
    (fun t h0 => by simp [h0])
    (fun t h0 => by simp [h0]) h

/-- Retry bookkeeping in `handleSyncError` preserves the pending/synced
queue invariant (it can only turn statuses into 'error', and only edits
counters on queue rows). -/
theorem inv_handleSyncError (cfg : SyncService.SyncConfig)
    (item : SyncQueueItem) (msg : String) (db : DB)
    (h : PendingSyncedInvariant db) :
    PendingSyncedInvariant (SyncService.handleSyncError cfg item msg db) := by
  refine inv_bumpQueue db _ _ ?_
    (fun q => by by_cases h0 : q.id = item.id <;> simp [h0]) h
  intro t' ht'
  by_cases hr : cfg.maxRetries ≤ item.retry_count + 1
  · rw [if_pos hr] at ht'
    obtain ⟨t0, ht0, rfl⟩ := List.mem_map.mp ht'
    by_cases h0 : t0.id = item.task_id <;>
      exact ⟨t0, ht0, by simp [h0], by simp [h0], by simp [h0]⟩
  · rw [if_neg hr] at ht'
    exact ⟨t', ht', rfl, fun hp => hp, fun hs => hs⟩

/-- Processing one response item preserves the pending/synced queue
invariant. -/
theorem inv_processItem (cfg : SyncService.SyncConfig) (now : Nat)
    (batch : List SyncQueueItem) (acc : SyncService.SyncResult × DB)
    (pi : SyncService.ProcessedItem) (h : PendingSyncedInvariant acc.2) :
    PendingSyncedInvariant (SyncService.processItem cfg now batch acc pi).2 := by
  obtain ⟨res, db⟩ := acc
  cases hs : pi.status with
  | success =>
    have e : (SyncService.processItem cfg now batch (res, db) pi).2 =
        SyncService.updateSyncStatus now pi.client_id .synced
          (SyncService.effectiveServerId pi) db := by
      simp [SyncService.processItem, hs]
    rw [e]
    exact inv_updateSyncStatus now pi.client_id
      (SyncService.effectiveServerId pi) db h
  | conflict =>
    have e : (SyncService.processItem cfg now batch (res, db) pi).2 =
        SyncService.updateSyncStatus now pi.client_id .synced
          (SyncService.effectiveServerId pi) db := by
      simp [SyncService.processItem, hs]
    rw [e]
    exact inv_updateSyncStatus now pi.client_id
      (SyncService.effectiveServerId pi) db h
  | error =>
    rcases hf : batch.find? (fun it => it.task_id = pi.client_id) with _ | qi
    · have e : (SyncService.processItem cfg now batch (res, db) pi).2 = db := by
        simp [SyncService.processItem, hs, hf]
      rw [e]
      exact h
    · have e : (SyncService.processItem cfg now batch (res, db) pi).2 =
          SyncService.handleSyncError cfg qi (pi.error.getD "sync error") db := by
        simp [SyncService.processItem, hs, hf]
      rw [e]
      exact inv_handleSyncError cfg qi (pi.error.getD "sync error") db h

/-- Folding the response items preserves the pending/synced queue
invariant. -/
theorem inv_foldl_processItem (cfg : SyncService.SyncConfig) (now : Nat)
    (batch : List SyncQueueItem) :
    ∀ (pis : List SyncService.ProcessedItem)
      (acc : SyncService.SyncResult × DB), PendingSyncedInvariant acc.2 →
      PendingSyncedInvariant
        ((pis.foldl (SyncService.processItem cfg now batch) acc)).2 := by
  intro pis
  induction pis with
  | nil => intro acc h; exact h
  | cons pi rest ih =>
    intro acc h
    exact ih _ (inv_processItem cfg now batch acc pi h)

/-- Transport-failure bookkeeping over a whole batch preserves the
pending/synced queue invariant. -/
theorem inv_processTransportFail (cfg : SyncService.SyncConfig) (now : Nat)
    (msg : String) :
    ∀ (batch : List SyncQueueItem) (acc : SyncService.SyncResult × DB),
      PendingSyncedInvariant acc.2 →
      PendingSyncedInvariant
        (SyncService.processTransportFail cfg now msg acc batch).2 := by
  intro batch
  induction batch with
  | nil => intro acc h; exact h
  | cons item rest ih =>
    intro acc h
    obtain ⟨res, db⟩ := acc
    exact ih _ (inv_handleSyncError cfg item msg db h)

/-- One batch iteration (response or transport failure) preserves the
pending/synced queue invariant. -/
theorem inv_processBatchOutcome (cfg : SyncService.SyncConfig) (now : Nat)
    (batch : List SyncQueueItem) (outcome : SyncService.BatchOutcome)
    (acc : SyncService.SyncResult × DB) (h : PendingSyncedInvariant acc.2) :
    PendingSyncedInvariant
      (SyncService.processBatchOutcome cfg now batch outcome acc).2 := by
  cases outcome with
  | transportFail msg => exact inv_processTransportFail cfg now msg batch acc h
  | reply processed =>
    cases processed with
    | none => exact h
    | some pis => exact inv_foldl_processItem cfg now batch pis acc h

/-- The whole batch loop preserves the pending/synced queue invariant. -/
theorem inv_runBatches (cfg : SyncService.SyncConfig) (now : Nat) :
    ∀ (bs : List (List SyncQueueItem))
      (oracle : List SyncService.BatchOutcome)
      (acc : SyncService.SyncResult × DB), PendingSyncedInvariant acc.2 →
      PendingSyncedInvariant (SyncService.runBatches cfg now bs oracle acc).2 := by
  intro bs
  induction bs with
  | nil => intro oracle acc h; exact h
  | cons batch rest ih =>
    intro oracle acc h
    exact ih oracle.tail _ (inv_processBatchOutcome cfg now batch _ acc h)

/-- A connected `sync()` run computes the batch loop over the fetched
queue (definitional unfolding). -/
theorem sync_online_eq (cfg : SyncService.SyncConfig)
    (oracle : List SyncService.BatchOutcome) (now : Nat) (db : DB) :
    SyncService.sync cfg true oracle now db =
      if (SyncService.fetchSyncQueueItems db).isEmpty then
        (⟨true, 0, 0, []⟩, db)
      else
        SyncService.runBatches cfg now
          (SyncService.batches cfg.batchSize
            (SyncService.fetchSyncQueueItems db))
          oracle (⟨true, 0, 0, []⟩, db) := rfl

/-- A whole `sync()` run preserves the pending/synced queue invariant. -/
theorem inv_sync (cfg : SyncService.SyncConfig) (connected : Bool)
    (oracle : List SyncService.BatchOutcome) (now : Nat) (db : DB)
    (h : PendingSyncedInvariant db) :
    PendingSyncedInvariant (SyncService.sync cfg connected oracle now db).2 := by
  cases connected with
  | false => exact h
  | true =>
    rw [sync_online_eq]
    by_cases he : (SyncService.fetchSyncQueueItems db).isEmpty = true
    · rw [if_pos he]
      exact h
    · rw [if_neg he]
      exact inv_runBatches cfg now _ oracle _ h

/-- Every system step preserves the pending/synced queue invariant. -/
theorem inv_step (db db2 : DB) (hstep : Step db db2)
    (h : PendingSyncedInvariant db) : PendingSyncedInvariant db2 :=
  match hstep with
  | .createStep id qid now data _ hfresh => inv_createTask id qid now data _ hfresh h
  | .updateStep id qid now upd _ => inv_updateTask id qid now upd _ h
  | .deleteStep id qid now _ => inv_deleteTask id qid now _ h
  | .syncStep cfg connected oracle now _ => inv_sync cfg connected oracle now _ h

/-- Reachability proof of the mixed-response trace: create, two transport
failures, a local update, then a sync whose response carries a 'success'
and an 'error' item for the same record. -/
theorem reachable_dbMixed : Reachable dbMixed := by
  have s1 : Step DB.empty dbStep1 :=
    Step.createStep "A" "q1" 1 ⟨some "Task A", none, false⟩ DB.empty
      (by decide)
  have s2 : Step dbStep1 dbStep2 :=
    Step.syncStep ⟨50, 3⟩ true [.transportFail "ECONNREFUSED"] 2 dbStep1
  have s3 : Step dbStep2 dbStep3 :=
    Step.syncStep ⟨50, 3⟩ true [.transportFail "ECONNREFUSED"] 3 dbStep2
  have s4 : Step dbStep3 dbUpd :=
    Step.updateStep "A" "q2" 5 ⟨some "Task A v2", none, none⟩ dbStep3
  have s5 : Step dbUpd dbMixed :=
    Step.syncStep ⟨50, 3⟩ true
      [.reply (some
        [⟨"A", some "srv-1", .success, none, none⟩,
         ⟨"A", some "srv-1", .error, none, some "server rejected"⟩])] 6 dbUpd
  exact Relation.ReflTransGen.tail
    (Relation.ReflTransGen.tail
      (Relation.ReflTransGen.tail
        (Relation.ReflTransGen.tail (Relation.ReflTransGen.single s1) s2)
        s3) s4) s5

/-- C8 counterexample: a reachable store (create, two transport failures,
a local update, then a response with a 'success' and an 'error' item for
the same record) whose record "A" has `sync_status = 'error'` with zero
queue entries — the claimed invariant requires at least one entry for an
'error' record. -/
theorem claim_C8_counterexample :
    Reachable dbMixed ∧ ¬ StatusQueueInvariant dbMixed ∧
    ((findTask dbMixed "A").map (fun t => t.sync_status) = some .error) ∧
    dbMixed.queue = [] :=
  ⟨reachable_dbMixed, by decide, by decide, by decide⟩

/-- C8 amended: in every reachable state the code maintains the pending
and synced halves of the invariant — a 'pending' record owns at least one
queue entry and a 'synced' record owns none — but not the 'error' half:
an 'error' record can be left with zero queue entries when retry
bookkeeping runs on a stale in-memory entry after a 'success' item in the
same run already pruned that record's queue. -/
theorem claim_C8_pending_synced_invariant (db : DB) (h : Reachable db) :
    PendingSyncedInvariant db := by
  unfold Reachable at h
  induction h with
  | refl => decide
  | tail _ hstep ih => exact inv_step _ _ hstep ih

/-- C8 amended witness: the invariant holds at the reachable mixed-response
store (whose record is 'error' with an empty queue — allowed by the
amended invariant). -/
theorem claim_C8_witness : PendingSyncedInvariant dbMixed :=
  claim_C8_pending_synced_invariant dbMixed reachable_dbMixed

end OfflineSync
